import Mathlib

/-!
Verification development for the native-messaging connector
(`src/NativeConnection.ts` and the connector/bootstrap module).

Modelling conventions:
* Bytes are `Nat` values in `0..255`; a Node `Buffer` is a `List Nat`.
* A JavaScript string is represented by its sequence of Unicode code
  points (`List Nat`).  Where the source calls `buffer.toString("utf-8", a, b)`
  and later concatenates the results, we keep the raw byte slices
  (`List Nat`); this is exact for the ASCII data used in the concrete
  evaluations below (real `toString` additionally mangles multi-byte
  sequences split across chunks, which only makes the code worse).
* `JSON.parse` / `JSON.stringify` are platform builtins, so the receive
  engine is parameterised by a `parse : List Nat → Option Json` function;
  `jsonParseInt` below is a concrete instance covering the integer
  literals used in concrete evaluations.
* `os.endianness()` is an ambient platform value; definitions take an
  `Endian` parameter and translate both switch arms of the source.
-/

inductive Endian where
  | be
  | le
deriving DecidableEq

/-- Model of `readUint32(buffer, offset)` (source lines 24–31).  Node's
`readUInt32BE/LE` throw a `RangeError` when `offset + 4 > buffer.length`;
the throw is modelled as `none`. -/
def readUint32 (endian : Endian) (buffer : List Nat) (offset : Nat) : Option Nat :=
  if offset + 4 ≤ buffer.length then
    let b := fun i => buffer.getD (offset + i) 0
    some (match endian with
      | .be => ((b 0 * 256 + b 1) * 256 + b 2) * 256 + b 3
      | .le => ((b 3 * 256 + b 2) * 256 + b 1) * 256 + b 0)
  else none

/-- Model of `writeUint32(buffer, value, offset)` (source lines 33–42),
returning the four bytes written (the source always writes at offset 0 of a
fresh buffer). -/
def writeUint32 (endian : Endian) (value : Nat) : List Nat :=
  match endian with
  | .be => [value / 16777216 % 256, value / 65536 % 256, value / 256 % 256, value % 256]
  | .le => [value % 256, value / 256 % 256, value / 65536 % 256, value / 16777216 % 256]

/-- JSON values (the payload universe of the connector; message bodies are
opaque JSON).  Strings are sequences of Unicode scalar values. -/
inductive Json where
  | null : Json
  | bool : Bool → Json
  | num : Int → Json
  | str : List Nat → Json
  | arr : List Json → Json
  | obj : List (List Nat × Json) → Json

/-- One hexadecimal digit (lower case), as a code point. -/
def hexDigit (n : Nat) : Nat :=
  if n < 10 then 48 + n else 87 + n

/-- `JSON.stringify` escaping of a single code point inside a string
literal: `"` and `\` get a backslash escape, the control characters
BS/TAB/LF/FF/CR get their two-character escapes, other control characters
get `\u00XX`, everything else (including non-ASCII) is left as is. -/
def escapeChar (c : Nat) : List Nat :=
  if c = 34 then [92, 34]
  else if c = 92 then [92, 92]
  else if c = 8 then [92, 98]
  else if c = 9 then [92, 116]
  else if c = 10 then [92, 110]
  else if c = 12 then [92, 102]
  else if c = 13 then [92, 114]
  else if c < 32 then [92, 117, 48, 48, hexDigit (c / 16), hexDigit (c % 16)]
  else [c]

/-- Decimal digits (as code points) of a natural number. -/
def natDigits (n : Nat) : List Nat :=
  (Nat.toDigits 10 n).map Char.toNat

/-- Decimal rendering of an integer, as code points. -/
def intDigits (n : Int) : List Nat :=
  if n < 0 then 45 :: natDigits n.natAbs else natDigits n.natAbs

mutual

/-- Model of `JSON.stringify(message, null, 0)`: the JSON text of a value,
as a sequence of code points. -/
def jsonStringify : Json → List Nat
  | .null => [110, 117, 108, 108]
  | .bool true => [116, 114, 117, 101]
  | .bool false => [102, 97, 108, 115, 101]
  | .num n => intDigits n
  | .str s => 34 :: (s.map escapeChar).flatten ++ [34]
  | .arr xs => 91 :: stringifyElems xs ++ [93]
  | .obj fs => 123 :: stringifyFields fs ++ [125]

/-- Comma-separated JSON texts of array elements. -/
def stringifyElems : List Json → List Nat
  | [] => []
  | [x] => jsonStringify x
  | x :: xs => jsonStringify x ++ 44 :: stringifyElems xs

/-- Comma-separated `"key":value` pairs of an object. -/
def stringifyFields : List (List Nat × Json) → List Nat
  | [] => []
  | [(k, v)] => 34 :: (k.map escapeChar).flatten ++ 34 :: 58 :: jsonStringify v
  | (k, v) :: fs =>
      34 :: (k.map escapeChar).flatten ++ 34 :: 58 :: jsonStringify v
        ++ 44 :: stringifyFields fs

end

/-- Number of UTF-16 code units of a code point: JavaScript
`String.prototype.length` counts astral code points twice. -/
def utf16Units (c : Nat) : Nat :=
  if c < 65536 then 1 else 2

/-- JavaScript string length (UTF-16 code units) of a code-point sequence. -/
def jsLength (s : List Nat) : Nat :=
  (s.map utf16Units).sum

/-- UTF-8 encoding of one code point. -/
def utf8EncodeChar (c : Nat) : List Nat :=
  if c < 128 then [c]
  else if c < 2048 then [192 + c / 64, 128 + c % 64]
  else if c < 65536 then [224 + c / 4096, 128 + c / 64 % 64, 128 + c % 64]
  else [240 + c / 262144, 128 + c / 4096 % 64, 128 + c / 64 % 64, 128 + c % 64]

/-- UTF-8 encoding of a code-point sequence. -/
def utf8Encode (s : List Nat) : List Nat :=
  (s.map utf8EncodeChar).flatten

/-- Model of `buffer.write(string, offset, "utf-8")` into `space` free
bytes: Node writes the UTF-8 bytes of the string but stops before the first
character that no longer fits (partially encoded characters are not
written).  Returns the bytes actually written. -/
def bufWriteUtf8 : Nat → List Nat → List Nat
  | _, [] => []
  | space, c :: cs =>
    let b := utf8EncodeChar c
    if b.length ≤ space then b ++ bufWriteUtf8 (space - b.length) cs else []

/-- Model of `sendMessage` (source lines 143–152): the bytes handed to
`streamWrite`.  `messageLen` is `jsonContent.length`, i.e. the UTF-16 code
unit count of the JSON text; the buffer is `Buffer.alloc(messageLen + 4)`
(zero filled), the length is written at offset 0 and the JSON text at
offset 4. -/
def sendMessageBuffer (endian : Endian) (message : Json) : List Nat :=
  let jsonContent := jsonStringify message
  let messageLen := jsLength jsonContent
  let written := bufWriteUtf8 messageLen jsonContent
  writeUint32 endian messageLen ++ (written ++ List.replicate (messageLen - written.length) 0)

/-- Value of a digit string, `none` if empty or containing a non-digit. -/
def digitsVal : List Nat → Option Nat
  | [] => none
  | ds => ds.foldl (fun acc d =>
      acc.bind fun a => if 48 ≤ d ∧ d ≤ 57 then some (a * 10 + (d - 48)) else none)
      (some 0)

/-- Concrete stand-in for the platform `JSON.parse`, restricted to the
integer literals used in the concrete evaluations below; every other input
is a parse failure (`none` models the thrown `SyntaxError`). -/
def jsonParseInt (bytes : List Nat) : Option Json :=
  match bytes with
  | 45 :: rest => (digitsVal rest).map (fun n => Json.num (-(n : Int)))
  | _ => (digitsVal bytes).map (fun n => Json.num (n : Int))

/-- The framing-engine fields of `NativeConnection` (source lines 48–51):
the inbound chunk queue, the pending-reader queue (readers identified by
the callback object pushed, see `readMessageRegister`), the accumulated
text of an in-progress frame, and the number of bytes still required.
`_remainingMessageSize` is a JavaScript number and the source can drive it
negative (line 134), hence `Int`. -/
structure FrameState where
  messageQueue : List (List Nat)
  readQueue : List Nat
  incompleteMessage : List Nat
  remainingMessageSize : Int
deriving DecidableEq

/-- Outcome of `dispatchMessage` (source lines 71–75). -/
inductive DispatchResult where
  | ok (reader : Nat) (value : Json) (rest : List Nat)
  | noReader
  | parseThrew (reader : Nat) (rest : List Nat)

/-- Model of `dispatchMessage(data)` (source lines 71–75): shift the oldest
reader off the queue, then call it with `JSON.parse(data)`.  With an empty
queue the shift yields `undefined` and the call throws (`noReader`); when
`JSON.parse` throws, the reader has already been removed but is never
invoked (`parseThrew`). -/
def dispatchMessage (parse : List Nat → Option Json) (data : List Nat)
    (readQueue : List Nat) : DispatchResult :=
  match readQueue with
  | [] => .noReader
  | r :: rest =>
    match parse data with
    | some v => .ok r v rest
    | none => .parseThrew r rest

/-- Exceptions escaping `processMessageQueue`, each carrying the state of
the engine at the moment of the throw. -/
inductive ProcError where
  | rangeError (s : FrameState)
  | noReader (s : FrameState)
  | parseError (reader : Nat) (data : List Nat) (s : FrameState)
deriving DecidableEq

/-- The `while` loop of `processMessageQueue` (source lines 88–140),
unrolled on a fuel argument; a sufficient fuel is supplied by
`processMessageQueue` below.  Returns the final state together with the
list of `(reader, parsedValue)` dispatches in the order they happened, or
the escaping exception.

Faithful points worth noting against the source:
* line 94 compares `buffer.length >= _remainingMessageSize` (correct
  direction), while line 119 compares `messageLen + 4 >= buffer.length`
  (the "message fits entirely" comment describes `messageLen + 4 <=
  buffer.length`; the source has the inequality the other way round);
* in both dispatching branches the dispatch happens before the queue and
  state-machine fields are updated, so a thrown `JSON.parse` leaves the
  chunk queue untouched;
* line 133 assigns (`=`) `buffer.toString("utf-8", 4)` — the whole rest of
  the chunk — and line 134 can make `_remainingMessageSize` negative. -/
def processLoop (endian : Endian) (parse : List Nat → Option Json) :
    Nat → FrameState → Except ProcError (FrameState × List (Nat × Json))
  | 0, s => .ok (s, [])
  | fuel + 1, s =>
    match s.messageQueue with
    | [] => .ok (s, [])
    | buffer :: restQueue =>
      if s.readQueue.length = 0 then .ok (s, [])
      else if s.remainingMessageSize > 0 then
        if (buffer.length : Int) ≥ s.remainingMessageSize then
          -- lines 94–109: the remaining message fits in the current buffer
          let data := s.incompleteMessage ++ buffer.take s.remainingMessageSize.toNat
          match dispatchMessage parse data s.readQueue with
          | .noReader => .error (.noReader s)
          | .parseThrew r rest =>
            .error (.parseError r data { s with incompleteMessage := data, readQueue := rest })
          | .ok r v rest =>
            let q' := if (buffer.length : Int) > s.remainingMessageSize then
                buffer.drop s.remainingMessageSize.toNat :: restQueue
              else restQueue
            match processLoop endian parse fuel
                { messageQueue := q', readQueue := rest,
                  incompleteMessage := [], remainingMessageSize := 0 } with
            | .ok (s', evs) => .ok (s', (r, v) :: evs)
            | .error e => .error e
        else
          -- lines 110–115: buffer does not contain enough data
          processLoop endian parse fuel
            { messageQueue := restQueue, readQueue := s.readQueue,
              incompleteMessage := s.incompleteMessage ++ buffer,
              remainingMessageSize := s.remainingMessageSize - buffer.length }
      else
        match readUint32 endian buffer 0 with
        | none => .error (.rangeError s)
        | some messageLen =>
          if messageLen + 4 ≥ buffer.length then
            -- lines 119–130 ("Message fits entirely into the buffer")
            let data := (buffer.take (4 + messageLen)).drop 4
            match dispatchMessage parse data s.readQueue with
            | .noReader => .error (.noReader s)
            | .parseThrew r rest => .error (.parseError r data { s with readQueue := rest })
            | .ok r v rest =>
              let q' := if messageLen + 4 > buffer.length then
                  buffer.drop (messageLen + 4) :: restQueue
                else restQueue
              match processLoop endian parse fuel { s with messageQueue := q', readQueue := rest } with
              | .ok (s', evs) => .ok (s', (r, v) :: evs)
              | .error e => .error e
          else
            -- lines 131–137 ("Buffer did not contain the entire message")
            processLoop endian parse fuel
              { messageQueue := restQueue, readQueue := s.readQueue,
                incompleteMessage := buffer.drop 4,
                remainingMessageSize := (messageLen : Int) - ((buffer.length : Int) - 4) }

/-- Total number of buffered bytes. -/
def queueBytes (q : List (List Nat)) : Nat :=
  (q.map List.length).sum

/-- Fuel that upper-bounds the iteration count of the loop: every
iteration either consumes at least one byte or removes one chunk. -/
def queueFuel (s : FrameState) : Nat :=
  queueBytes s.messageQueue + s.messageQueue.length + 1

/-- Model of `processMessageQueue` (source lines 77–141).  The early
returns on lines 78–86 coincide with the loop guard. -/
def processMessageQueue (endian : Endian) (parse : List Nat → Option Json)
    (s : FrameState) : Except ProcError (FrameState × List (Nat × Json)) :=
  processLoop endian parse (queueFuel s) s

/-- Registration effect of `readMessage(timeoutMs)` (source lines 154–177).
Callbacks are identified by the identity of the function object pushed:
`resolveId` is the promise's `resolve`, `wrapperId` the fresh closure
`x => { clearTimeout(timeoutId); resolve(x); }` built on line 166 (a new
object, hence distinct from `resolve`).  `if (timeoutMs)` is JavaScript
truthiness: a timer is armed only when `timeoutMs` is present and nonzero,
and then the wrapper — not `resolve` — is pushed.  Returns the new reader
queue and whether a timer was armed. -/
def readMessageRegister (timeoutMs : Option Nat) (resolveId wrapperId : Nat)
    (readQueue : List Nat) : List Nat × Bool :=
  match timeoutMs with
  | some t =>
    if t ≠ 0 then (readQueue ++ [wrapperId], true)
    else (readQueue ++ [resolveId], false)
  | none => (readQueue ++ [resolveId], false)

/-- Model of the armed timeout firing (source lines 157–164): look up
`indexOf(resolve)` in the reader queue, splice it out when found, and
reject the promise with "Timeout reached" in either case. -/
def timeoutFire (resolveId : Nat) (readQueue : List Nat) : List Nat :=
  match readQueue.findIdx? (· = resolveId) with
  | some i => readQueue.eraseIdx i
  | none => readQueue

/-- Full effect of a `readMessage` call on the framing state: register the
callback (line 166 or 171), then run `processMessageQueue` (line 175). -/
def readMessageCall (endian : Endian) (parse : List Nat → Option Json)
    (timeoutMs : Option Nat) (resolveId wrapperId : Nat) (s : FrameState) :
    Except ProcError (FrameState × List (Nat × Json)) × Bool :=
  let reg := readMessageRegister timeoutMs resolveId wrapperId s.readQueue
  (processMessageQueue endian parse { s with readQueue := reg.1 }, reg.2)

/-- Connection-level state of `NativeConnection`: the framing fields plus
the `_connected` flag.  `killCount` counts the `process.kill()` calls made
so far (observation of the process handle, not a source field). -/
structure NativeConnectionState where
  frame : FrameState
  connected : Bool
  killCount : Nat
deriving DecidableEq

/-- State set up by the constructor (source lines 53–59);
`_incompleteMessage` starts uninitialised and is modelled empty. -/
def NativeConnection.initial : NativeConnectionState :=
  { frame := { messageQueue := [], readQueue := [], incompleteMessage := [],
               remainingMessageSize := 0 },
    connected := true, killCount := 0 }

/-- Model of the `error` / `close` / `exit` handlers installed by the
constructor (source lines 61–63): each handler's whole body is
`this._connected = false`. -/
def onProcessTerminated (s : NativeConnectionState) : NativeConnectionState :=
  { s with connected := false }

/-- Model of the `data` handler (source lines 65–68): push the chunk onto
the message queue and run `processMessageQueue`. -/
def onStdoutData (endian : Endian) (parse : List Nat → Option Json)
    (chunk : List Nat) (s : NativeConnectionState) :
    Except ProcError (NativeConnectionState × List (Nat × Json)) :=
  match processMessageQueue endian parse
      { s.frame with messageQueue := s.frame.messageQueue ++ [chunk] } with
  | .ok (f', evs) => .ok ({ s with frame := f' }, evs)
  | .error e => .error e

/-- Model of `disconnect` (source lines 179–184). -/
def disconnect (s : NativeConnectionState) : NativeConnectionState :=
  if s.connected then { s with connected := false, killCount := s.killCount + 1 }
  else s

/-- Browser families (the `NativeAppType` enum of the connector module). -/
inductive NativeAppType where
  | firefox
  | chrome
  | chromium
  | vivaldi
deriving DecidableEq

/-- `ManifestSearchLocation` bitmask values. -/
def searchLocationFirefox : Nat := 1
def searchLocationChrome : Nat := 2
def searchLocationChromium : Nat := 4
def searchLocationVivaldi : Nat := 8
def searchLocationAll : Nat := 63

/-- Code points of a string literal (file paths and names are modelled as
JavaScript strings, i.e. code-point sequences, like every other string in
this development). -/
def strCodes (s : String) : List Nat :=
  s.toList.map Char.toNat

/-- Model of `path.join(a, b)` for the joins performed by the connector
(no `..` or repeated separators occur in its inputs): one `/` separator is
inserted unless `a` already ends in one. -/
def pathJoin (a b : List Nat) : List Nat :=
  if a.getLast? = some 47 then a ++ b else a ++ 47 :: b

/-- Model of the `getManifestLocations` generator: the candidate
directories, in yield order, for a platform, home directory and scope
bitmask.  Non-Linux platforms yield nothing. -/
def getManifestLocations (platform home : List Nat) (searchLocation : Nat) :
    List (List Nat × NativeAppType) :=
  if platform = strCodes "linux" then
    (if searchLocation &&& searchLocationFirefox ≠ 0 then
      [(strCodes "/usr/lib/mozilla/native-messaging-hosts/", NativeAppType.firefox),
       (pathJoin home (strCodes ".mozilla/native-messaging-hosts/"), NativeAppType.firefox)]
     else [])
    ++ (if searchLocation &&& searchLocationChrome ≠ 0 then
      [(strCodes "/etc/opt/chrome/native-messaging-hosts", NativeAppType.chrome)] else [])
    ++ (if searchLocation &&& searchLocationChromium ≠ 0 then
      [(strCodes "/etc/chromium/native-messaging-hosts", NativeAppType.chromium)] else [])
    ++ (if searchLocation &&& searchLocationVivaldi ≠ 0 then
      [(pathJoin home (strCodes ".config/vivaldi/NativeMessagingHosts"), NativeAppType.vivaldi)] else [])
  else []

/-- Model of `findManifest`: walk the candidate directories; `lstat` the
candidate file (`fs path = none` models a thrown "path does not exist",
which is caught and skipped; `some b` reports `stats.isFile()`); the first
regular file wins, otherwise the function returns `null` (`none`). -/
def findManifest (fs : List Nat → Option Bool) (platform home : List Nat)
    (manifestName : List Nat) (searchLocation : Nat) :
    Option (List Nat × NativeAppType) :=
  (getManifestLocations platform home searchLocation).findSome? fun pl =>
    let testPath := pathJoin pl.1 (manifestName ++ strCodes ".json")
    match fs testPath with
    | some true => some (testPath, pl.2)
    | _ => none

/-- Failure modes of `NativeConnector.create`, as observed by its caller. -/
inductive CreateError where
  | nullNotIterable
  | manifestNotFound
  | manifestNotReadable
  | readFileRejected
  | invalidJson
deriving DecidableEq

/-- Model of `NativeConnector.create` (connector module lines 84–105).
`readFile` models `fsp.readFile` (`none` = the promise rejected, which
propagates out of `create`); `jsonParse` models `JSON.parse` on the
manifest text.

Faithful points: when `findManifest` resolves to `null`, the destructuring
`const [manifest_path, app_type] = ...` on line 86 throws
`TypeError: null is not iterable` (`nullNotIterable`) before the
`manifest_path === null` check on line 88 can run, so the
`"Manifest could not be found!"` error (`manifestNotFound`) is never
thrown; likewise `fsp.readFile` never resolves to `null`, so the
`"Manifest could not be read."` error (`manifestNotReadable`) on line 95
is unreachable.  No `path` field of the parsed manifest is inspected. -/
def NativeConnector.create (fs : List Nat → Option Bool)
    (readFile : List Nat → Option (List Nat)) (jsonParse : List Nat → Option Json)
    (platform home manifestName : List Nat) (searchLocation : Nat) :
    Except CreateError (Json × NativeAppType) :=
  match findManifest fs platform home manifestName searchLocation with
  | none => .error .nullNotIterable
  | some (manifestPath, appType) =>
    match readFile manifestPath with
    | none => .error .readFileRejected
    | some content =>
      match jsonParse content with
      | none => .error .invalidJson
      | some manifest => .ok (manifest, appType)

/-- C1: the round-trip law fails.  Sending the value `12` produces the six
wire bytes `[2,0,0,0,49,50]` whose payload parses back to `12`, yet
feeding the receive engine the split of that stream after byte 5 (inside
the payload) makes it dispatch the value `1` — a truncated frame — to the
pending reader, and the split after byte 2 (inside the 4-byte header)
makes `readUint32` throw a `RangeError`.  The delivered sequence is not
the sent sequence. -/
theorem roundtrip_fails_on_split :
    sendMessageBuffer .le (Json.num 12) = [2, 0, 0, 0, 49, 50] ∧
    jsonParseInt [49, 50] = some (Json.num 12) ∧
    processMessageQueue .le jsonParseInt
      ⟨[(sendMessageBuffer .le (Json.num 12)).take 5], [0], [], 0⟩
      = .ok (⟨[[]], [], [], 0⟩, [(0, Json.num 1)]) ∧
    processMessageQueue .le jsonParseInt
      ⟨[(sendMessageBuffer .le (Json.num 12)).take 2], [0], [], 0⟩
      = .error (.rangeError ⟨[[2, 0]], [0], [], 0⟩) :=
  ⟨rfl, rfl, rfl, rfl⟩

/-- C2: the fresh-frame step is inverted (source line 119 tests
`messageLen + 4 >= buffer.length` where "the chunk contains header plus
payload" is `messageLen + 4 <= buffer.length`).  First conjunct: a head
chunk `[2,0,0,0,49,50,51]` holding the full 2-byte frame plus a trailing
byte is *not* dispatched — the whole tail `[49,50,51]` is accumulated as
partial-frame text and the remaining count is set to `-1` instead of
retaining `[51]` as the new head chunk.  Second conjunct: a head chunk
`[2,0,0,0,49]` with fewer than `4 + L` bytes is *not* accumulated — the
truncated payload `[49]` is dispatched immediately instead of recording a
remaining count of 1. -/
theorem freshFrame_step_inverted :
    processMessageQueue .le jsonParseInt ⟨[[2, 0, 0, 0, 49, 50, 51]], [0], [], 0⟩
      = .ok (⟨[], [0], [49, 50, 51], -1⟩, []) ∧
    processMessageQueue .le jsonParseInt ⟨[[2, 0, 0, 0, 49]], [0], [], 0⟩
      = .ok (⟨[[]], [], [], 0⟩, [(0, Json.num 1)]) :=
  ⟨rfl, rfl⟩

/-- C3: the 4-byte length prefix is the UTF-16 code-unit count of the JSON
text, not its UTF-8 byte length.  For the string value `"é"` (code point
233) the JSON text `"é"` has 3 code units but 4 UTF-8 bytes; the engine
writes prefix 3 and truncates the payload to `[34, 195, 169]`, dropping
the closing quote, so the payload written is not the UTF-8 encoding of the
serialized JSON. -/
theorem sendMessage_prefix_is_utf16_count :
    jsonStringify (Json.str [233]) = [34, 233, 34] ∧
    (utf8Encode (jsonStringify (Json.str [233]))).length = 4 ∧
    sendMessageBuffer .le (Json.str [233]) = [3, 0, 0, 0, 34, 195, 169] ∧
    (sendMessageBuffer .le (Json.str [233])).drop 4
      ≠ utf8Encode (jsonStringify (Json.str [233])) :=
  ⟨rfl, rfl, rfl, by decide⟩

/-- C4: a fired timeout does not deregister its reader.  Registering with
timeout 1000 pushes the wrapper closure (id 1), not `resolve` (id 0); the
timer's `indexOf(resolve)` therefore finds nothing and the splice is
skipped, so the queue still holds the wrapper after the timeout rejects;
a frame completing afterwards is dispatched to that timed-out wrapper
(consuming the frame) instead of staying buffered. -/
theorem timeout_does_not_deregister :
    readMessageRegister (some 1000) 0 1 [] = ([1], true) ∧
    timeoutFire 0 [1] = [1] ∧
    processMessageQueue .le jsonParseInt ⟨[[2, 0, 0, 0, 52, 50]], [1], [], 0⟩
      = .ok (⟨[], [], [], 0⟩, [(1, Json.num 42)]) :=
  ⟨rfl, rfl, rfl⟩

/-- C5 counterexample: with one pending reader (id 7) and no buffered
frame, the process-termination handlers leave the reader in the pending
queue — the state after the `close` event is exactly the old state with
`_connected` cleared, so the reader is not failed with any error. -/
theorem close_leaves_reader_pending :
    (onProcessTerminated
      { frame := { messageQueue := [], readQueue := [7], incompleteMessage := [],
                   remainingMessageSize := 0 },
        connected := true, killCount := 0 }).frame.readQueue = [7] ∧
    (onProcessTerminated
      { frame := { messageQueue := [], readQueue := [7], incompleteMessage := [],
                   remainingMessageSize := 0 },
        connected := true, killCount := 0 }).connected = false :=
  ⟨rfl, rfl⟩

/-- C5 as amended: the `error`/`close`/`exit` handlers only clear the
`_connected` flag; pending readers are neither failed nor removed (the
whole framing state is untouched), and data arriving afterwards is still
processed exactly as before closure — the reader left pending at closure
would consume a later frame rather than receive a `ConnectionClosed`
failure. -/
theorem close_only_clears_connected (s : NativeConnectionState) (endian : Endian)
    (parse : List Nat → Option Json) (chunk : List Nat) :
    onProcessTerminated s = { s with connected := false } ∧
    (onProcessTerminated s).frame.readQueue = s.frame.readQueue ∧
    onStdoutData endian parse chunk (onProcessTerminated s)
      = (match onStdoutData endian parse chunk s with
         | .ok (s', evs) => .ok ({ s' with connected := false }, evs)
         | .error e => .error e) := by
  refine ⟨rfl, rfl, ?_⟩
  unfold onStdoutData onProcessTerminated
  rcases h : processMessageQueue endian parse
      { s.frame with messageQueue := s.frame.messageQueue ++ [chunk] } with e | ⟨f', evs⟩
  · simp [h]
  · simp [h]

/-- C8: `disconnect` is idempotent; from an `Open` connection it kills the
process and marks the connection closed, and any number of further
`disconnect` calls change nothing, so the process is killed exactly once
across all calls. -/
theorem disconnect_idempotent_kills_once (s : NativeConnectionState) :
    disconnect (disconnect s) = disconnect s ∧
    (s.connected = true →
      (disconnect s).connected = false ∧
      (disconnect s).killCount = s.killCount + 1 ∧
      ∀ n : Nat, (disconnect^[n] (disconnect s)).killCount = s.killCount + 1) := by
  constructor
  · by_cases h : s.connected <;> simp [disconnect, h]
  · intro h
    refine ⟨by simp [disconnect, h], by simp [disconnect, h], fun n => ?_⟩
    have hfix : disconnect (disconnect s) = disconnect s := by simp [disconnect, h]
    rw [Function.iterate_fixed hfix]
    simp [disconnect, h]

/-- Witness for C8 at the freshly constructed connection. -/
theorem disconnect_idempotent_kills_once_witness :
    disconnect (disconnect NativeConnection.initial) = disconnect NativeConnection.initial ∧
    (disconnect NativeConnection.initial).killCount = 1 := by
  have h := disconnect_idempotent_kills_once NativeConnection.initial
  exact ⟨h.1, (h.2 rfl).2.1⟩

/-- C10: `readMessage(0)` arms no timer (JavaScript truthiness of the
`if (timeoutMs)` test): the registration, the armed flag and the whole
call effect coincide with those of `readMessage()` with no timeout. -/
theorem readMessage_zero_timeout (endian : Endian) (parse : List Nat → Option Json)
    (resolveId wrapperId : Nat) (s : FrameState) :
    readMessageRegister (some 0) resolveId wrapperId s.readQueue
      = readMessageRegister none resolveId wrapperId s.readQueue ∧
    (readMessageRegister (some 0) resolveId wrapperId s.readQueue).2 = false ∧
    readMessageCall endian parse (some 0) resolveId wrapperId s
      = readMessageCall endian parse none resolveId wrapperId s :=
  ⟨rfl, rfl, rfl⟩

/-- A successful `dispatchMessage` took the oldest pending reader: the
queue was `reader :: rest` and the payload parsed. -/
theorem dispatchMessage_ok (parse : List Nat → Option Json) (data : List Nat)
    (queue rest : List Nat) (r : Nat) (v : Json)
    (h : dispatchMessage parse data queue = .ok r v rest) :
    queue = r :: rest ∧ parse data = some v := by
  unfold dispatchMessage at h
  rcases queue with _ | ⟨a, as⟩
  · exact absurd h (by simp)
  · rcases hp : parse data with _ | w <;> rw [hp] at h
    · exact absurd h (by simp)
    · injection h with h1 h2 h3
      subst h1; subst h2; subst h3
      exact ⟨rfl, rfl⟩

/-- C9: FIFO delivery.  In any run of the processing loop that dispatches
`events`, the dispatched frames — listed in the order they completed — go
to exactly the first `events.length` pending readers in registration
order (the Nth completed frame to the Nth oldest reader), and precisely
those readers are removed from the queue. -/
theorem fifo_delivery (endian : Endian) (parse : List Nat → Option Json) :
    ∀ (fuel : Nat) (s s' : FrameState) (events : List (Nat × Json)),
      processLoop endian parse fuel s = .ok (s', events) →
      events.map Prod.fst = s.readQueue.take events.length ∧
      s'.readQueue = s.readQueue.drop events.length := by
  intro fuel
  induction fuel with
  | zero =>
    intro s s' events h
    simp only [processLoop] at h
    injection h with h
    injection h with h1 h2
    subst h1; subst h2
    simp
  | succ n ih =>
    intro s s' events h
    simp only [processLoop] at h
    split at h
    · injection h with h
      injection h with h1 h2
      subst h1; subst h2
      simp
    · split at h
      · injection h with h
        injection h with h1 h2
        subst h1; subst h2
        simp
      · split at h
        · split at h
          · split at h
            · exact absurd h (by simp)
            · exact absurd h (by simp)
            · rename_i buffer restQueue hne hrem hlongenough r v rest hdisp
              split at h
              · rename_i s2 evs hrec
                injection h with h
                injection h with h1 h2
                subst h1; subst h2
                obtain ⟨hq, _⟩ := dispatchMessage_ok _ _ _ _ _ _ hdisp
                obtain ⟨ih1, ih2⟩ := ih _ _ _ hrec
                constructor
                · simp only [List.map_cons, List.length_cons, hq, List.take_succ_cons]
                  rw [ih1]
                · simp only [hq, List.length_cons, List.drop_succ_cons]
                  exact ih2
              · exact absurd h (by simp)
          · obtain ⟨ih1, ih2⟩ := ih _ _ _ h
            exact ⟨ih1, ih2⟩
        · split at h
          · exact absurd h (by simp)
          · split at h
            · split at h
              · exact absurd h (by simp)
              · exact absurd h (by simp)
              · rename_i buffer restQueue hne hrem mlen hread hfits r v rest hdisp
                split at h
                · rename_i s2 evs hrec
                  injection h with h
                  injection h with h1 h2
                  subst h1; subst h2
                  obtain ⟨hq, _⟩ := dispatchMessage_ok _ _ _ _ _ _ hdisp
                  obtain ⟨ih1, ih2⟩ := ih _ _ _ hrec
                  constructor
                  · simp only [List.map_cons, List.length_cons, hq, List.take_succ_cons]
                    rw [ih1]
                  · simp only [hq, List.length_cons, List.drop_succ_cons]
                    exact ih2
                · exact absurd h (by simp)
            · obtain ⟨ih1, ih2⟩ := ih _ _ _ h
              exact ⟨ih1, ih2⟩

/-- Witness for C9: two single-frame chunks and two pending readers `[5, 7]`;
reader 5 receives the first completed frame (`1`) and reader 7 the second
(`2`), and both leave the queue. -/
theorem fifo_delivery_witness :
    processLoop .le jsonParseInt 10 ⟨[[1, 0, 0, 0, 49], [1, 0, 0, 0, 50]], [5, 7], [], 0⟩
      = .ok (⟨[], [], [], 0⟩, [(5, Json.num 1), (7, Json.num 2)]) ∧
    ([(5, Json.num 1), (7, Json.num 2)].map Prod.fst
        = ([5, 7] : List Nat).take [(5, Json.num 1), (7, Json.num 2)].length ∧
      (⟨[], [], [], 0⟩ : FrameState).readQueue
        = ([5, 7] : List Nat).drop [(5, Json.num 1), (7, Json.num 2)].length) :=
  ⟨rfl, fifo_delivery .le jsonParseInt 10
    ⟨[[1, 0, 0, 0, 49], [1, 0, 0, 0, 50]], [5, 7], [], 0⟩
    ⟨[], [], [], 0⟩ [(5, Json.num 1), (7, Json.num 2)] rfl⟩

/-- C6 counterexample: for the frame `[1,0,0,0,120]` whose 1-byte payload
`x` is not JSON, the engine does not report a `MalformedFrame` to reader 7
— the exception escapes `processMessageQueue` with reader 7 already
removed but never invoked, and the chunk queue still holds the whole
frame, unlike the state `⟨[], [], [], 0⟩` left by a well-formed frame of
the same length, whose reader does receive its value. -/
theorem malformed_frame_corrupts_state :
    processMessageQueue .le jsonParseInt ⟨[[1, 0, 0, 0, 120]], [7], [], 0⟩
      = .error (.parseError 7 [120] ⟨[[1, 0, 0, 0, 120]], [], [], 0⟩) ∧
    processMessageQueue .le jsonParseInt ⟨[[1, 0, 0, 0, 49]], [7], [], 0⟩
      = .ok (⟨[], [], [], 0⟩, [(7, Json.num 1)]) ∧
    (⟨[[1, 0, 0, 0, 120]], [], [], 0⟩ : FrameState).messageQueue
      ≠ (⟨[], [], [], 0⟩ : FrameState).messageQueue :=
  ⟨rfl, rfl, by decide⟩

/-- C6 as amended: whenever the head chunk is a complete frame
(4-byte header announcing exactly the payload's length) whose payload
fails JSON parsing, the parse exception propagates out of
`processMessageQueue`; the reader the frame would have gone to is removed
from the reader queue but never invoked (no `MalformedFrame` delivery),
and the chunk queue is left un-advanced — still holding the whole frame —
rather than in the state a well-formed dispatch would leave. -/
theorem malformed_frame_not_reported (r : Nat) (header payload : List Nat)
    (q : List (List Nat)) (rq : List Nat)
    (hh : header.length = 4)
    (hread : readUint32 .le (header ++ payload) 0 = some payload.length)
    (hparse : jsonParseInt payload = none) :
    processMessageQueue .le jsonParseInt ⟨(header ++ payload) :: q, r :: rq, [], 0⟩
      = .error (.parseError r payload ⟨(header ++ payload) :: q, rq, [], 0⟩) := by
  have hlen : (header ++ payload).length = 4 + payload.length := by
    simp [hh]
  have htake : (header ++ payload).take (4 + payload.length) = header ++ payload :=
    List.take_of_length_le (le_of_eq hlen)
  have hdrop : (header ++ payload).drop 4 = payload := by
    conv in List.drop 4 => rw [← hh]
    exact List.drop_left header payload
  unfold processMessageQueue queueFuel
  simp only [processLoop]
  rw [hread]
  simp only [List.length_cons, hlen]
  rw [if_neg (by simp), if_neg (by simp), if_pos (by omega)]
  rw [htake, hdrop]
  unfold dispatchMessage
  rw [hparse]

/-- Witness for C6 as amended: header `[2,0,0,0]`, payload `ab` (not
JSON), single pending reader 9. -/
theorem malformed_frame_not_reported_witness :
    processMessageQueue .le jsonParseInt ⟨([2, 0, 0, 0] ++ [97, 98]) :: [], 9 :: [], [], 0⟩
      = .error (.parseError 9 [97, 98] ⟨([2, 0, 0, 0] ++ [97, 98]) :: [], [], [], 0⟩) :=
  malformed_frame_not_reported 9 [2, 0, 0, 0] [97, 98] [] [] rfl rfl rfl

/-- C7: when no candidate directory holds the manifest, `create` does not
fail with the `NotFound` error — destructuring the `null` returned by
`findManifest` throws `TypeError: null is not iterable` first, so the
`"Manifest could not be found!"` branch is unreachable for every input;
and a manifest that is valid JSON but has no usable `path` field is
accepted (no `InvalidManifest` failure), as shown by a manifest file
containing only `\x7b\x7d`. -/
theorem create_notFound_unreachable :
    NativeConnector.create (fun _ => none) (fun _ => none) (fun _ => none)
      (strCodes "linux") (strCodes "/home/user") (strCodes "myapp") searchLocationAll
      = .error .nullNotIterable ∧
    (∀ fs readFile jsonParse platform home manifestName searchLocation,
      NativeConnector.create fs readFile jsonParse platform home manifestName searchLocation
        ≠ .error .manifestNotFound) ∧
    NativeConnector.create
      (fun p => if p = strCodes "/etc/chromium/native-messaging-hosts/myapp.json"
        then some true else none)
      (fun _ => some (strCodes "\x7b\x7d"))
      (fun c => if c = strCodes "\x7b\x7d" then some (Json.obj []) else none)
      (strCodes "linux") (strCodes "/home/user") (strCodes "myapp") searchLocationAll
      = .ok (Json.obj [], .chromium) := by
  refine ⟨rfl, ?_, rfl⟩
  intro fs readFile jsonParse platform home manifestName searchLocation
  unfold NativeConnector.create
  rcases hf : findManifest fs platform home manifestName searchLocation with _ | ⟨mp, t⟩ <;>
    simp only [hf]
  · simp
  · rcases hr : readFile mp with _ | c <;> simp only [hr]
    · simp
    · rcases hj : jsonParse c with _ | m <;> simp only [hj] <;> simp
